import Mathlib

/- Verification of the staged-change verification engine of commitwise
(src/checks/frontendCheck.ts).

Shallow embedding.  The engine's external effects — filesystem probes at the
repository root, git plumbing at the process working directory, and subprocess
execution — are modelled by explicit world records (`RepoEnv`,
`IsolationWorld`, `WorktreeWorld`) that fix what each effectful call would
observe.  Every subprocess invocation and filesystem mutation is additionally
logged as an `Action`, so that properties about which processes are spawned
(and with which argument vectors) can be stated.  `git worktree remove --force`
and `fs.rmSync` with recursive/force options are modelled as achieving their
effect; the code wraps both in try/catch, swallowing any failure, so the
cleanup closure is a total function in the model. -/

namespace FrontendCheck

/-- JS `String.prototype.trim`: strip leading and trailing whitespace. -/
def jsTrim (s : String) : String :=
  String.mk (((s.data.dropWhile Char.isWhitespace).reverse.dropWhile Char.isWhitespace).reverse)

/-- JS `String.prototype.startsWith`. -/
def jsStartsWith (s pre : String) : Bool :=
  pre.data.isPrefixOf s.data

/-- `CheckKind` from frontendCheck.ts: "tests" | "typecheck" | "lint" | "build". -/
inductive CheckKind
  | tests
  | typecheck
  | lint
  | build
deriving DecidableEq

/-- `CheckCommand`: a candidate check (kind, display name, program, argv). -/
structure CheckCommand where
  kind : CheckKind
  name : String
  program : String
  args : List String
deriving DecidableEq

/-- `CheckResult`: outcome of verification.  Optional fields default to
absent, matching the TS object literals that omit them. -/
structure CheckResult where
  ran : Bool
  ok : Bool
  kind : Option CheckKind := none
  name : Option String := none
  output : Option String := none
deriving DecidableEq

/-- The parsed shape of package.json as the engine reads it: the `scripts`
map plus the key sets of the three dependency maps (only key names are ever
inspected by the code). -/
structure PackageJson where
  scripts : List (String × String)
  dependencies : List String
  devDependencies : List String
  peerDependencies : List String
deriving DecidableEq

/-- Filesystem facts at the repository root, as observed by `exists`,
`readJson` and `fs.existsSync`.  `pkg` is the result of
`readJson("package.json")`: `none` models a parse failure (or absence). -/
structure RepoEnv where
  pkgExists : Bool
  pkg : Option PackageJson
  hasPnpmLock : Bool
  hasYarnLock : Bool
  hasBunLockb : Bool
  hasBunLock : Bool
  hasTsconfig : Bool
  hasPackageLock : Bool
  hasNodeModules : Bool
deriving DecidableEq

/-- JS truthiness of `scripts.<n>` for a string-valued field: present and
non-empty. -/
def hasScript (scripts : List (String × String)) (n : String) : Bool :=
  match scripts.lookup n with
  | some v => v != ""
  | none => false

/-- Package managers recognized by STEP 1. -/
inductive Pm
  | pnpm
  | yarn
  | bun
  | npm
deriving DecidableEq

/-- The executable name of a package manager. -/
def Pm.str : Pm → String
  | .pnpm => "pnpm"
  | .yarn => "yarn"
  | .bun => "bun"
  | .npm => "npm"

/-- STEP 1: detect the package manager by checking lockfiles, defaulting to
npm. -/
def detectPm (env : RepoEnv) : Pm :=
  if env.hasPnpmLock then .pnpm
  else if env.hasYarnLock then .yarn
  else if env.hasBunLockb || env.hasBunLock then .bun
  else .npm

/-- STEP 2C: the test script name, trying "test" then the recognized
variants test:run, test:ci, test:unit. -/
def testScriptOf (scripts : List (String × String)) : Option String :=
  if hasScript scripts "test" then some "test"
  else if hasScript scripts "test:run" then some "test:run"
  else if hasScript scripts "test:ci" then some "test:ci"
  else if hasScript scripts "test:unit" then some "test:unit"
  else none

/-- Helper from STEP 2: build a "pm run script" command. -/
def runScriptCmd (pm : String) (kind : CheckKind) (scriptName : String) : CheckCommand :=
  ⟨kind, pm ++ " run " ++ scriptName, pm, ["run", scriptName]⟩

/-- STEP 2C continued: the tests candidate — "pm test" shorthand for the
canonical name, "pm run test:xxx" for the variants. -/
def testChecksOf (pm : String) (scripts : List (String × String)) : List CheckCommand :=
  match testScriptOf scripts with
  | none => []
  | some s =>
    if s = "test" then [⟨.tests, pm ++ " test", pm, ["test"]⟩]
    else [⟨.tests, pm ++ " run " ++ s, pm, ["run", s]⟩]

/-- STEP 2: read package.json scripts and build the candidate checks, in the
push order tests, typecheck, lint, build.  No manifest, or a manifest that
fails to parse, yields the empty catalog. -/
def detectChecksFromPackageJson (env : RepoEnv) : List CheckCommand :=
  if !env.pkgExists then []
  else
    match env.pkg with
    | none => []
    | some pkg =>
      let scripts := pkg.scripts
      let pm := (detectPm env).str
      testChecksOf pm scripts
        ++ (if hasScript scripts "typecheck" then [runScriptCmd pm .typecheck "typecheck"] else [])
        ++ (if hasScript scripts "lint" then [runScriptCmd pm .lint "lint"] else [])
        ++ (if hasScript scripts "build" then [runScriptCmd pm .build "build"] else [])

/-- Vue/Nuxt detection over one dependency key. -/
def isVueDep (dep : String) : Bool :=
  dep == "vue" || jsStartsWith dep "@vue/" || jsStartsWith dep "nuxt"

/-- The key set of the object spread of dependencies, devDependencies and
peerDependencies (duplicates are harmless: only membership is tested). -/
def allDepKeys (pkg : PackageJson) : List String :=
  pkg.dependencies ++ pkg.devDependencies ++ pkg.peerDependencies

/-- The Vue-project test of STEP 3: some combined dependency key is "vue",
starts with "@vue/", or starts with "nuxt".  False when package.json is
missing or unparsable. -/
def isVueOf (env : RepoEnv) : Bool :=
  if env.pkgExists then
    match env.pkg with
    | some pkg => (allDepKeys pkg).any isVueDep
    | none => false
  else false

/-- STEP 3: safe TypeScript fallback when no typecheck script exists.
Nothing when a typecheck script is already present or tsconfig.json is
absent; otherwise vue-tsc for Vue projects, tsc otherwise, both through
npx. -/
def detectTypecheckFallback (env : RepoEnv) (alreadyHasTypecheckScript : Bool) :
    List CheckCommand :=
  if alreadyHasTypecheckScript then []
  else if !env.hasTsconfig then []
  else if isVueOf env then
    [⟨.typecheck, "npx vue-tsc --noEmit", "npx", ["-y", "vue-tsc", "--noEmit"]⟩]
  else
    [⟨.typecheck, "npx tsc --noEmit", "npx", ["-y", "tsc", "--noEmit"]⟩]

/-- STEP 4E: position of a kind in the priority array
["tests", "typecheck", "lint", "build"]. -/
def priorityIdx : CheckKind → Nat
  | .tests => 0
  | .typecheck => 1
  | .lint => 2
  | .build => 3

/-- The comparator used to sort candidates: by priority-array index. -/
def priorityLe (a b : CheckCommand) : Prop :=
  priorityIdx a.kind ≤ priorityIdx b.kind

instance : DecidableRel priorityLe := fun _ _ => Nat.decLe _ _

instance : IsTotal CheckCommand priorityLe := ⟨fun _ _ => Nat.le_total _ _⟩

instance : IsTrans CheckCommand priorityLe := ⟨fun _ _ _ => Nat.le_trans⟩

/-- STEP 4B: whether the detected script checks already contain a typecheck
entry. -/
def hasTypecheckScriptOf (env : RepoEnv) : Bool :=
  (detectChecksFromPackageJson env).any (fun c => c.kind == .typecheck)

/-- STEP 4C: the fallback contribution, as consulted by pickBestCheck. -/
def fallbackChecksOf (env : RepoEnv) : List CheckCommand :=
  detectTypecheckFallback env (hasTypecheckScriptOf env)

/-- STEP 4D: script checks followed by the fallback. -/
def allChecksOf (env : RepoEnv) : List CheckCommand :=
  detectChecksFromPackageJson env ++ fallbackChecksOf env

/-- STEP 4: combine detected checks, stable-sort by the priority rules and
pick the first one (JS Array sort with a comparator is stable; the model
uses a stable sort). -/
def pickBestCheck (env : RepoEnv) : Option CheckCommand :=
  let allChecks := allChecksOf env
  if allChecks.isEmpty then none
  else
    match allChecks.insertionSort priorityLe with
    | [] => none
    | c :: _ => some c

/-- What spawnSync or execFileSync would observe for one subprocess: the
exit status (`none` models a null status: launch failure or signal death),
captured stdout and stderr, and the error message when launching failed. -/
structure SpawnOutcome where
  status : Option Int
  stdout : String
  stderr : String
  errMsg : Option String
deriving DecidableEq

/-- Logged external effects of one verification call.  `exec` records the
program, the literal ordered argv, and whether a shell interprets the
command line (spawnSync is called with shell:false, and execFileSync never
uses a shell, so the engine only ever produces false there). -/
inductive Action
  | mkTmpDir
  | exec (program : String) (args : List String) (shell : Bool)
  | writeFile (p : String)
  | symlink
  | rmTmpDir
deriving DecidableEq

/-- The text appended when spawnSync reports a launch error. -/
def launchErrText : Option String → String
  | some m => "\n" ++ m
  | none => ""

/-- The output string assembled by `run`: stdout, stderr and the launch
error text concatenated, then trimmed. -/
def runOutput (o : SpawnOutcome) : String :=
  jsTrim (o.stdout ++ o.stderr ++ launchErrText o.errMsg)

/-- The classification of `run`: ok iff (status ?? 1) is exactly 0. -/
def runOk (o : SpawnOutcome) : Bool :=
  o.status.getD 1 == 0

/-- The ok/output pair returned by `run`. -/
structure RunRes where
  ok : Bool
  output : String
deriving DecidableEq

/-- STEP 0C: run a command with shell:false, capture output, classify. -/
def run (program : String) (args : List String) (o : SpawnOutcome) : RunRes × Action :=
  (⟨runOk o, runOutput o⟩, Action.exec program args false)

/-- Git-level and filesystem-level resources owned by one verification
call: the temporary directory and the git worktree registration. -/
structure ResState where
  tmpDirExists : Bool
  worktreeRegistered : Bool
deriving DecidableEq

/-- Both resources released. -/
def ResState.clean : ResState := ⟨false, false⟩

/-- What the git plumbing at the process working directory would produce:
the temp directory name mkdtempSync allocates, the staged diff text, and
the outcome of `git apply` were it invoked.  None of this depends on the
repoRoot argument — createStagedWorktree takes no argument in the source
and issues its git commands against the process working directory. -/
structure IsolationWorld where
  tmpBase : String
  stagedPatch : String
  applyOk : Bool
  applyStdout : String
  applyStderr : String
deriving DecidableEq

/-- The worktree directory inside the temp folder. -/
def wtDirOf (w : IsolationWorld) : String := w.tmpBase ++ "/wt"

/-- The staged patch file inside the temp folder. -/
def patchFileOf (w : IsolationWorld) : String := w.tmpBase ++ "/staged.patch"

/-- STEP 5A:-5C actions: temp dir, worktree add, staged diff export, patch
file write. -/
def setupActs (w : IsolationWorld) : List Action :=
  [Action.mkTmpDir,
   Action.exec "git" ["worktree", "add", "--detach", wtDirOf w, "HEAD"] false,
   Action.exec "git" ["diff", "--cached"] false,
   Action.writeFile (patchFileOf w)]

/-- The STEP 5D patch application command. -/
def applyActOf (w : IsolationWorld) : Action :=
  Action.exec "git" ["apply", "--whitespace=nowarn", patchFileOf w] false

/-- The error message thrown on patch-apply failure: fixed explanation text
followed by the captured stdout and stderr of the failed git apply. -/
def applyFailMsg (w : IsolationWorld) : String :=
  "Failed to apply staged patch in worktree. This can happen with partial hunks, renames, or conflicts.\n"
    ++ "Staged changes could not be reproduced for testing.\n"
    ++ w.applyStdout ++ w.applyStderr

/-- STEP 5E: the cleanup closure — remove the worktree registration and the
temp directory.  The source wraps both operations in try/catch, swallowing
any failure, so the closure never raises: in the model it is a total
function yielding the released resource state and its two actions. -/
def cleanup (w : IsolationWorld) : ResState × List Action :=
  (ResState.clean,
   [Action.exec "git" ["worktree", "remove", "--force", wtDirOf w] false,
    Action.rmTmpDir])

/-- STEP 5: create a temporary git worktree at HEAD and apply the staged
diff.  On apply failure, clean up best-effort and throw the descriptive
error; otherwise return the worktree directory with resources held. -/
def createStagedWorktree (w : IsolationWorld) :
    Except String String × ResState × List Action :=
  if jsTrim w.stagedPatch ≠ "" then
    if w.applyOk then
      (Except.ok (wtDirOf w), ⟨true, true⟩, setupActs w ++ [applyActOf w])
    else
      (Except.error (applyFailMsg w), (cleanup w).1,
       setupActs w ++ [applyActOf w] ++ (cleanup w).2)
  else
    (Except.ok (wtDirOf w), ⟨true, true⟩, setupActs w)

/-- Effect outcomes inside the fresh worktree: whether node_modules is
already present there, whether symlinkSync would succeed, and what the
install and check subprocesses would produce. -/
structure WorktreeWorld where
  wtHasNodeModules : Bool
  symlinkOk : Bool
  installOutcome : SpawnOutcome
  checkOutcome : SpawnOutcome
deriving DecidableEq

/-- STEP 6D: the symlink is attempted exactly when the root has
node_modules and the worktree does not. -/
def linkAttemptedOf (env : RepoEnv) (wt : WorktreeWorld) : Bool :=
  env.hasNodeModules && !wt.wtHasNodeModules

/-- Whether node_modules exists in the worktree after the link attempt. -/
def nmAfterLinkOf (env : RepoEnv) (wt : WorktreeWorld) : Bool :=
  wt.wtHasNodeModules || (linkAttemptedOf env wt && wt.symlinkOk)

/-- The symlink action, when attempted. -/
def linkActsOf (env : RepoEnv) (wt : WorktreeWorld) : List Action :=
  if linkAttemptedOf env wt then [Action.symlink] else []

/-- STEP 6D fallback install invocation: npx-wrapped frozen installs for
pnpm and yarn; the final else covers both npm and bun, calling npm directly
with ci when package-lock.json exists and install otherwise. -/
def installCmd (env : RepoEnv) : String × List String :=
  match detectPm env with
  | .pnpm => ("npx", ["-y", "pnpm", "install", "--frozen-lockfile"])
  | .yarn => ("npx", ["-y", "yarn", "install", "--frozen-lockfile"])
  | _ => ("npm", if env.hasPackageLock then ["ci"] else ["install"])

/-- STEP 6: pick the best check, create the staged worktree, provision
dependencies, run the check, and always clean up.  The returned triple is
the result (an exception is an `Except.error`), the final resource state,
and the logged actions in order. -/
def runBestFrontendCheck (env : RepoEnv) (iso : IsolationWorld) (wt : WorktreeWorld) :
    Except String CheckResult × ResState × List Action :=
  match pickBestCheck env with
  | none => (Except.ok { ran := false, ok := true }, ResState.clean, [])
  | some best =>
    match createStagedWorktree iso with
    | (Except.error e, s, acts) => (Except.error e, s, acts)
    | (Except.ok _dir, _s, acts) =>
      if nmAfterLinkOf env wt then
        let result := (run best.program best.args wt.checkOutcome).1
        (Except.ok { ran := true, ok := result.ok, kind := some best.kind,
                     name := some best.name, output := some result.output },
         (cleanup iso).1,
         acts ++ linkActsOf env wt
           ++ [(run best.program best.args wt.checkOutcome).2] ++ (cleanup iso).2)
      else
        let installResult := (run (installCmd env).1 (installCmd env).2 wt.installOutcome).1
        let instAct := (run (installCmd env).1 (installCmd env).2 wt.installOutcome).2
        if !installResult.ok then
          (Except.ok { ran := true, ok := false, kind := some best.kind,
                       name := some best.name,
                       output := some ("Failed to install dependencies in worktree:\n"
                         ++ installResult.output) },
           (cleanup iso).1,
           acts ++ linkActsOf env wt ++ [instAct] ++ (cleanup iso).2)
        else
          let result := (run best.program best.args wt.checkOutcome).1
          (Except.ok { ran := true, ok := result.ok, kind := some best.kind,
                       name := some best.name, output := some result.output },
           (cleanup iso).1,
           acts ++ linkActsOf env wt
             ++ [instAct, (run best.program best.args wt.checkOutcome).2] ++ (cleanup iso).2)

/-- Whether an action is a subprocess invocation. -/
def Action.isExec : Action → Bool
  | .exec _ _ _ => true
  | _ => false

/-- Whether an action is a git plumbing invocation. -/
def Action.isGitExec : Action → Bool
  | .exec p _ _ => p == "git"
  | _ => false

/-- Whether an action is a subprocess invocation of something other than
git. -/
def Action.isNonGitExec : Action → Bool
  | .exec p _ _ => p != "git"
  | _ => false

/-- Whether an action avoids shell interpretation (non-exec actions
trivially do). -/
def Action.noShell : Action → Bool
  | .exec _ _ sh => !sh
  | _ => true

/-- True when every spawned process in the trace is given to the OS as a
program plus literal argv with the shell disabled. -/
def onlyNoShell (tr : List Action) : Bool :=
  tr.all Action.noShell

/-- The git plumbing commands of a trace, in order. -/
def gitCmdsOf (tr : List Action) : List Action :=
  tr.filter Action.isGitExec

/-- The git plumbing commands the isolation step issues, as a function of
the git state at the process working directory alone. -/
def isoGitCmds (iso : IsolationWorld) : List Action :=
  [Action.exec "git" ["worktree", "add", "--detach", wtDirOf iso, "HEAD"] false,
   Action.exec "git" ["diff", "--cached"] false]
    ++ (if jsTrim iso.stagedPatch ≠ "" then [applyActOf iso] else [])
    ++ [Action.exec "git" ["worktree", "remove", "--force", wtDirOf iso] false]

/-- The kind of the selected check, when one is selected. -/
def selectedKind (env : RepoEnv) : Option CheckKind :=
  (pickBestCheck env).map (fun c => c.kind)

/-- True when the Except value is a normal return. -/
def isNormalReturn (r : Except String CheckResult) : Bool :=
  match r with
  | .ok _ => true
  | .error _ => false

/- ------------------------- helper lemmas ------------------------- -/

theorem createStagedWorktree_emptyPatch (w : IsolationWorld)
    (h : jsTrim w.stagedPatch = "") :
    createStagedWorktree w = (Except.ok (wtDirOf w), ⟨true, true⟩, setupActs w) := by
  simp [createStagedWorktree, h]

theorem createStagedWorktree_applied (w : IsolationWorld)
    (h1 : jsTrim w.stagedPatch ≠ "") (h2 : w.applyOk = true) :
    createStagedWorktree w =
      (Except.ok (wtDirOf w), ⟨true, true⟩, setupActs w ++ [applyActOf w]) := by
  simp [createStagedWorktree, h1, h2]

theorem createStagedWorktree_applyFail (w : IsolationWorld)
    (h1 : jsTrim w.stagedPatch ≠ "") (h2 : w.applyOk = false) :
    createStagedWorktree w =
      (Except.error (applyFailMsg w), (cleanup w).1,
       setupActs w ++ [applyActOf w] ++ (cleanup w).2) := by
  simp [createStagedWorktree, h1, h2]

theorem createStagedWorktree_ok_cases (w : IsolationWorld)
    (h : jsTrim w.stagedPatch = "" ∨ w.applyOk = true) :
    ∃ acts, createStagedWorktree w = (Except.ok (wtDirOf w), ⟨true, true⟩, acts) ∧
      (acts = setupActs w ∨ acts = setupActs w ++ [applyActOf w]) := by
  by_cases hp : jsTrim w.stagedPatch = ""
  · exact ⟨setupActs w, createStagedWorktree_emptyPatch w hp, Or.inl rfl⟩
  · rcases h with h | h
    · exact absurd h hp
    · exact ⟨setupActs w ++ [applyActOf w], createStagedWorktree_applied w hp h, Or.inr rfl⟩

theorem runBest_none (env : RepoEnv) (iso : IsolationWorld) (wt : WorktreeWorld)
    (h : pickBestCheck env = none) :
    runBestFrontendCheck env iso wt =
      (Except.ok { ran := false, ok := true }, ResState.clean, []) := by
  simp [runBestFrontendCheck, h]

theorem runBest_isoFail (env : RepoEnv) (iso : IsolationWorld) (wt : WorktreeWorld)
    (best : CheckCommand) (hb : pickBestCheck env = some best)
    (h1 : jsTrim iso.stagedPatch ≠ "") (h2 : iso.applyOk = false) :
    runBestFrontendCheck env iso wt =
      (Except.error (applyFailMsg iso), ResState.clean,
       setupActs iso ++ [applyActOf iso] ++ (cleanup iso).2) := by
  simp [runBestFrontendCheck, hb, createStagedWorktree_applyFail iso h1 h2, cleanup]

theorem runBest_checkRun (env : RepoEnv) (iso : IsolationWorld) (wt : WorktreeWorld)
    (best : CheckCommand) (acts : List Action)
    (hb : pickBestCheck env = some best)
    (hc : createStagedWorktree iso = (Except.ok (wtDirOf iso), ⟨true, true⟩, acts))
    (hnm : nmAfterLinkOf env wt = true) :
    runBestFrontendCheck env iso wt =
      (Except.ok { ran := true, ok := runOk wt.checkOutcome, kind := some best.kind,
                   name := some best.name, output := some (runOutput wt.checkOutcome) },
       ResState.clean,
       acts ++ linkActsOf env wt
         ++ [Action.exec best.program best.args false] ++ (cleanup iso).2) := by
  simp [runBestFrontendCheck, hb, hc, hnm, run, cleanup]

theorem runBest_installFail (env : RepoEnv) (iso : IsolationWorld) (wt : WorktreeWorld)
    (best : CheckCommand) (acts : List Action)
    (hb : pickBestCheck env = some best)
    (hc : createStagedWorktree iso = (Except.ok (wtDirOf iso), ⟨true, true⟩, acts))
    (hnm : nmAfterLinkOf env wt = false)
    (hin : runOk wt.installOutcome = false) :
    runBestFrontendCheck env iso wt =
      (Except.ok { ran := true, ok := false, kind := some best.kind,
                   name := some best.name,
                   output := some ("Failed to install dependencies in worktree:\n"
                     ++ runOutput wt.installOutcome) },
       ResState.clean,
       acts ++ linkActsOf env wt
         ++ [Action.exec (installCmd env).1 (installCmd env).2 false] ++ (cleanup iso).2) := by
  simp [runBestFrontendCheck, hb, hc, hnm, hin, run, cleanup]

theorem runBest_installOkCheckRun (env : RepoEnv) (iso : IsolationWorld) (wt : WorktreeWorld)
    (best : CheckCommand) (acts : List Action)
    (hb : pickBestCheck env = some best)
    (hc : createStagedWorktree iso = (Except.ok (wtDirOf iso), ⟨true, true⟩, acts))
    (hnm : nmAfterLinkOf env wt = false)
    (hin : runOk wt.installOutcome = true) :
    runBestFrontendCheck env iso wt =
      (Except.ok { ran := true, ok := runOk wt.checkOutcome, kind := some best.kind,
                   name := some best.name, output := some (runOutput wt.checkOutcome) },
       ResState.clean,
       acts ++ linkActsOf env wt
         ++ [Action.exec (installCmd env).1 (installCmd env).2 false,
             Action.exec best.program best.args false] ++ (cleanup iso).2) := by
  simp [runBestFrontendCheck, hb, hc, hnm, hin, run, cleanup]

/-- The final resource state of every call is released on every path. -/
theorem runBest_resState (env : RepoEnv) (iso : IsolationWorld) (wt : WorktreeWorld) :
    (runBestFrontendCheck env iso wt).2.1 = ResState.clean := by
  cases hb : pickBestCheck env with
  | none => rw [runBest_none env iso wt hb]
  | some best =>
    by_cases hp : jsTrim iso.stagedPatch = ""
    · rcases createStagedWorktree_ok_cases iso (Or.inl hp) with ⟨acts, hc, _⟩
      cases hnm : nmAfterLinkOf env wt
      · cases hin : runOk wt.installOutcome
        · rw [runBest_installFail env iso wt best acts hb hc hnm hin]
        · rw [runBest_installOkCheckRun env iso wt best acts hb hc hnm hin]
      · rw [runBest_checkRun env iso wt best acts hb hc hnm]
    · cases ha : iso.applyOk
      · rw [runBest_isoFail env iso wt best hb hp ha]
      · rcases createStagedWorktree_ok_cases iso (Or.inr ha) with ⟨acts, hc, _⟩
        cases hnm : nmAfterLinkOf env wt
        · cases hin : runOk wt.installOutcome
          · rw [runBest_installFail env iso wt best acts hb hc hnm hin]
          · rw [runBest_installOkCheckRun env iso wt best acts hb hc hnm hin]
        · rw [runBest_checkRun env iso wt best acts hb hc hnm]

theorem pickBest_min (env : RepoEnv) (hne : allChecksOf env ≠ []) :
    ∃ c, pickBestCheck env = some c ∧ c ∈ allChecksOf env ∧
      ∀ x ∈ allChecksOf env, priorityIdx c.kind ≤ priorityIdx x.kind := by
  have hperm := List.perm_insertionSort priorityLe (allChecksOf env)
  cases hs : (allChecksOf env).insertionSort priorityLe with
  | nil =>
    rw [hs] at hperm
    exact absurd hperm.symm.eq_nil hne
  | cons c cs =>
    have hmem : c ∈ allChecksOf env := by
      refine hperm.subset ?_
      rw [hs]
      exact List.mem_cons_self c cs
    refine ⟨c, ?_, hmem, ?_⟩
    · unfold pickBestCheck
      have hie : (allChecksOf env).isEmpty = false := by
        simpa [List.isEmpty_iff] using hne
      simp [hie, hs]
    · intro x hx
      have hx2 : x ∈ c :: cs := by
        rw [← hs]
        exact hperm.symm.subset hx
      rcases List.mem_cons.mp hx2 with rfl | hx3
      · exact Nat.le_refl _
      · have hsorted := List.sorted_insertionSort priorityLe (allChecksOf env)
        rw [hs] at hsorted
        exact List.rel_of_sorted_cons hsorted x hx3

theorem pickBest_isSome (env : RepoEnv) (hne : allChecksOf env ≠ []) :
    (pickBestCheck env).isSome = true := by
  rcases pickBest_min env hne with ⟨c, hc, -, -⟩
  simp [hc]

theorem pickBest_mem (env : RepoEnv) (best : CheckCommand)
    (hb : pickBestCheck env = some best) : best ∈ allChecksOf env := by
  have hne : allChecksOf env ≠ [] := by
    intro h
    rw [pickBestCheck] at hb
    simp [h] at hb
  rcases pickBest_min env hne with ⟨c, hc, hcm, -⟩
  rw [hb] at hc
  cases hc
  exact hcm

theorem detect_noManifest (env : RepoEnv)
    (h : env.pkgExists = false ∨ env.pkg = none) :
    detectChecksFromPackageJson env = [] := by
  rcases h with h | h
  · simp [detectChecksFromPackageJson, h]
  · by_cases he : env.pkgExists <;> simp [detectChecksFromPackageJson, h, he]

theorem allChecks_noManifest_noTs (env : RepoEnv)
    (h : env.pkgExists = false ∨ env.pkg = none) (hts : env.hasTsconfig = false) :
    allChecksOf env = [] := by
  have hd := detect_noManifest env h
  simp [allChecksOf, hd, fallbackChecksOf, detectTypecheckFallback, hts,
    hasTypecheckScriptOf]

theorem runBest_ranFalse_inv (env : RepoEnv) (iso : IsolationWorld) (wt : WorktreeWorld)
    (r : CheckResult)
    (hr : (runBestFrontendCheck env iso wt).1 = Except.ok r) (hran : r.ran = false) :
    r.ok = true ∧ r.kind = none ∧ r.output = none := by
  cases hb : pickBestCheck env with
  | none =>
    rw [runBest_none env iso wt hb] at hr
    simp at hr
    subst hr
    exact ⟨rfl, rfl, rfl⟩
  | some best =>
    exfalso
    by_cases hp : jsTrim iso.stagedPatch = ""
    · rcases createStagedWorktree_ok_cases iso (Or.inl hp) with ⟨acts, hc, -⟩
      cases hnm : nmAfterLinkOf env wt
      · cases hin : runOk wt.installOutcome
        · rw [runBest_installFail env iso wt best acts hb hc hnm hin] at hr
          simp at hr
          subst hr
          simp at hran
        · rw [runBest_installOkCheckRun env iso wt best acts hb hc hnm hin] at hr
          simp at hr
          subst hr
          simp at hran
      · rw [runBest_checkRun env iso wt best acts hb hc hnm] at hr
        simp at hr
        subst hr
        simp at hran
    · cases ha : iso.applyOk
      · rw [runBest_isoFail env iso wt best hb hp ha] at hr
        simp at hr
      · rcases createStagedWorktree_ok_cases iso (Or.inr ha) with ⟨acts, hc, -⟩
        cases hnm : nmAfterLinkOf env wt
        · cases hin : runOk wt.installOutcome
          · rw [runBest_installFail env iso wt best acts hb hc hnm hin] at hr
            simp at hr
            subst hr
            simp at hran
          · rw [runBest_installOkCheckRun env iso wt best acts hb hc hnm hin] at hr
            simp at hr
            subst hr
            simp at hran
        · rw [runBest_checkRun env iso wt best acts hb hc hnm] at hr
          simp at hr
          subst hr
          simp at hran

theorem testScriptOf_isSome (scripts : List (String × String))
    (h : hasScript scripts "test" = true ∨ hasScript scripts "test:run" = true ∨
         hasScript scripts "test:ci" = true ∨ hasScript scripts "test:unit" = true) :
    ∃ s, testScriptOf scripts = some s := by
  unfold testScriptOf
  split
  · exact ⟨_, rfl⟩
  · split
    · exact ⟨_, rfl⟩
    · split
      · exact ⟨_, rfl⟩
      · split
        · exact ⟨_, rfl⟩
        · rcases h with h | h | h | h <;> simp_all

theorem testChecksOf_shape (pm : String) (scripts : List (String × String)) (s : String)
    (hs : testScriptOf scripts = some s) :
    ∃ c rest, testChecksOf pm scripts = c :: rest ∧ c.kind = CheckKind.tests := by
  by_cases hst : s = "test"
  · refine ⟨⟨CheckKind.tests, pm ++ " test", pm, ["test"]⟩, [], ?_, rfl⟩
    simp [testChecksOf, hs, hst]
  · refine ⟨⟨CheckKind.tests, pm ++ " run " ++ s, pm, ["run", s]⟩, [], ?_, rfl⟩
    simp [testChecksOf, hs, hst]

theorem tests_mem_allChecks (env : RepoEnv) (pkg : PackageJson)
    (he : env.pkgExists = true) (hp : env.pkg = some pkg)
    (s : String) (hs : testScriptOf pkg.scripts = some s) :
    ∃ c ∈ allChecksOf env, c.kind = CheckKind.tests := by
  rcases testChecksOf_shape (detectPm env).str pkg.scripts s hs with ⟨c, rest, hsh, hk⟩
  refine ⟨c, ?_, hk⟩
  unfold allChecksOf detectChecksFromPackageJson
  simp [he, hp, hsh]

theorem priorityIdx_eq_zero (k : CheckKind) (h : priorityIdx k = 0) :
    k = CheckKind.tests := by
  cases k <;> simp_all [priorityIdx]

theorem hasTypecheckScriptOf_true (env : RepoEnv) (pkg : PackageJson)
    (he : env.pkgExists = true) (hp : env.pkg = some pkg)
    (hs : hasScript pkg.scripts "typecheck" = true) :
    hasTypecheckScriptOf env = true := by
  unfold hasTypecheckScriptOf detectChecksFromPackageJson
  simp [he, hp, hs, runScriptCmd]

theorem fallback_program_npx (env : RepoEnv) (b : Bool) :
    (detectTypecheckFallback env b).all (fun c => c.program == "npx") = true := by
  unfold detectTypecheckFallback
  split
  · rfl
  · split
    · rfl
    · split <;> rfl

theorem detect_program_all (env : RepoEnv) :
    (detectChecksFromPackageJson env).all
      (fun c => c.program == (detectPm env).str) = true := by
  unfold detectChecksFromPackageJson
  split
  · rfl
  · split
    · rfl
    · simp only [List.all_append, Bool.and_eq_true]
      refine ⟨⟨⟨?_, ?_⟩, ?_⟩, ?_⟩
      · unfold testChecksOf
        split
        · rfl
        · split <;> simp
      · split <;> simp [runScriptCmd]
      · split <;> simp [runScriptCmd]
      · split <;> simp [runScriptCmd]

theorem pickBest_program_notGit (env : RepoEnv) (best : CheckCommand)
    (hb : pickBestCheck env = some best) : (best.program == "git") = false := by
  have hmem := pickBest_mem env best hb
  unfold allChecksOf at hmem
  rcases List.mem_append.mp hmem with h | h
  · have h2 := List.all_eq_true.mp (detect_program_all env) best h
    have hpm : best.program = (detectPm env).str := by simpa using h2
    rw [hpm]
    cases detectPm env <;> decide
  · have h2 := List.all_eq_true.mp (fallback_program_npx env _) best h
    have hpx : best.program = "npx" := by simpa using h2
    rw [hpx]
    decide

theorem installCmd_notGit (env : RepoEnv) : ((installCmd env).1 == "git") = false := by
  unfold installCmd
  cases detectPm env <;> simp

theorem linkActs_filter_isGit (env : RepoEnv) (wt : WorktreeWorld) :
    (linkActsOf env wt).filter Action.isGitExec = [] := by
  unfold linkActsOf
  split <;> rfl

theorem linkActs_filter_nonGit (env : RepoEnv) (wt : WorktreeWorld) :
    (linkActsOf env wt).filter Action.isNonGitExec = [] := by
  unfold linkActsOf
  split <;> rfl

theorem linkActs_noShell (env : RepoEnv) (wt : WorktreeWorld) :
    (linkActsOf env wt).all Action.noShell = true := by
  unfold linkActsOf
  split <;> rfl

theorem gitCmds_trace (env : RepoEnv) (iso : IsolationWorld) (wt : WorktreeWorld)
    (best : CheckCommand) (hb : pickBestCheck env = some best) :
    gitCmdsOf (runBestFrontendCheck env iso wt).2.2 = isoGitCmds iso := by
  have hpg := pickBest_program_notGit env best hb
  have hig := installCmd_notGit env
  by_cases hp : jsTrim iso.stagedPatch = ""
  · have hc := createStagedWorktree_emptyPatch iso hp
    cases hnm : nmAfterLinkOf env wt
    · cases hin : runOk wt.installOutcome
      · rw [runBest_installFail env iso wt best _ hb hc hnm hin]
        simp [gitCmdsOf, isoGitCmds, setupActs, cleanup, applyActOf, Action.isGitExec,
          List.filter_append, linkActs_filter_isGit, hp, hig]
      · rw [runBest_installOkCheckRun env iso wt best _ hb hc hnm hin]
        simp [gitCmdsOf, isoGitCmds, setupActs, cleanup, applyActOf, Action.isGitExec,
          List.filter_append, linkActs_filter_isGit, hp, hig, hpg]
    · rw [runBest_checkRun env iso wt best _ hb hc hnm]
      simp [gitCmdsOf, isoGitCmds, setupActs, cleanup, applyActOf, Action.isGitExec,
        List.filter_append, linkActs_filter_isGit, hp, hpg]
  · cases ha : iso.applyOk
    · rw [runBest_isoFail env iso wt best hb hp ha]
      simp [gitCmdsOf, isoGitCmds, setupActs, cleanup, applyActOf, Action.isGitExec,
        List.filter_append, hp]
    · have hc := createStagedWorktree_applied iso hp ha
      cases hnm : nmAfterLinkOf env wt
      · cases hin : runOk wt.installOutcome
        · rw [runBest_installFail env iso wt best _ hb hc hnm hin]
          simp [gitCmdsOf, isoGitCmds, setupActs, cleanup, applyActOf, Action.isGitExec,
            List.filter_append, linkActs_filter_isGit, hp, hig]
        · rw [runBest_installOkCheckRun env iso wt best _ hb hc hnm hin]
          simp [gitCmdsOf, isoGitCmds, setupActs, cleanup, applyActOf, Action.isGitExec,
            List.filter_append, linkActs_filter_isGit, hp, hig, hpg]
      · rw [runBest_checkRun env iso wt best _ hb hc hnm]
        simp [gitCmdsOf, isoGitCmds, setupActs, cleanup, applyActOf, Action.isGitExec,
          List.filter_append, linkActs_filter_isGit, hp, hpg]

theorem runBest_normal_of_isoOk (env : RepoEnv) (iso : IsolationWorld) (wt : WorktreeWorld)
    (best : CheckCommand) (hb : pickBestCheck env = some best)
    (hiso : jsTrim iso.stagedPatch = "" ∨ iso.applyOk = true) :
    isNormalReturn (runBestFrontendCheck env iso wt).1 = true := by
  rcases createStagedWorktree_ok_cases iso hiso with ⟨acts, hc, -⟩
  cases hnm : nmAfterLinkOf env wt
  · cases hin : runOk wt.installOutcome
    · rw [runBest_installFail env iso wt best acts hb hc hnm hin]
      rfl
    · rw [runBest_installOkCheckRun env iso wt best acts hb hc hnm hin]
      rfl
  · rw [runBest_checkRun env iso wt best acts hb hc hnm]
    rfl

/- ------------------------- concrete fixtures ------------------------- -/

/-- A manifest declaring a test script and a lint script. -/
def pkgTestLint : PackageJson :=
  ⟨[("test", "vitest run"), ("lint", "eslint .")], [], [], []⟩

/-- A manifest declaring only a lint script. -/
def pkgLintOnly : PackageJson :=
  ⟨[("lint", "eslint .")], [], [], []⟩

/-- A manifest declaring a typecheck script. -/
def pkgTypecheckOnly : PackageJson :=
  ⟨[("typecheck", "tsc --noEmit")], [], [], []⟩

/-- A manifest with no scripts but a vue dependency. -/
def pkgVue : PackageJson :=
  ⟨[], ["vue"], [], []⟩

/-- Root with the test+lint manifest, no lockfiles, no tsconfig, no
node_modules. -/
def envTest : RepoEnv :=
  ⟨true, some pkgTestLint, false, false, false, false, false, false, false⟩

/-- Root with the lint-only manifest. -/
def envLint : RepoEnv :=
  ⟨true, some pkgLintOnly, false, false, false, false, false, false, false⟩

/-- Root with no package.json and no tsconfig. -/
def envNoPkg : RepoEnv :=
  ⟨false, none, false, false, false, false, false, false, false⟩

/-- Root with no package.json but a tsconfig.json. -/
def envTsOnly : RepoEnv :=
  ⟨false, none, false, false, false, false, true, false, false⟩

/-- Root with the vue manifest and a tsconfig.json. -/
def envVue : RepoEnv :=
  ⟨true, some pkgVue, false, false, false, false, true, false, false⟩

/-- Root with the typecheck-script manifest and a tsconfig.json. -/
def envTypecheck : RepoEnv :=
  ⟨true, some pkgTypecheckOnly, false, false, false, false, true, false, false⟩

/-- The tests command selected for the envTest root. -/
def bestTest : CheckCommand :=
  ⟨CheckKind.tests, "npm test", "npm", ["test"]⟩

/-- Git state with an empty staged diff. -/
def isoEmpty : IsolationWorld :=
  ⟨"/tmp/commitwise-x", "", true, "", ""⟩

/-- Git state whose staged diff is non-empty and fails to apply. -/
def isoFailing : IsolationWorld :=
  ⟨"/tmp/commitwise-x", "diff --git a b", false, "OUT", "ERR"⟩

/-- Worktree whose install attempt fails with exit 1. -/
def wtInstallFail : WorktreeWorld :=
  ⟨false, false, ⟨some 1, "install boom", "", none⟩, ⟨some 0, "passed", "", none⟩⟩

/-- Worktree with node_modules already present and a failing check. -/
def wtPlain : WorktreeWorld :=
  ⟨true, true, ⟨some 0, "", "", none⟩, ⟨some 1, "FAIL", "", none⟩⟩

/-- Worktree whose symlink attempt fails and whose install succeeds. -/
def wtLinkFail : WorktreeWorld :=
  ⟨false, false, ⟨some 0, "", "", none⟩, ⟨some 0, "", "", none⟩⟩

/- ------------------------- claim theorems ------------------------- -/

/-- C1: cleanup totality.  For every call that reaches the isolation step
(a check was selected), on every exit path — normal return, provisioning
failure reported in the result, or the patch-application exception — the
final resource state has the worktree registration removed and the
temporary directory gone, and the cleanup closure is a total function in
the model (the source swallows any error inside it, so it never throws)
yielding the released state. -/
theorem cleanup_totality (env : RepoEnv) (iso : IsolationWorld) (wt : WorktreeWorld)
    (_reach : (pickBestCheck env).isSome = true) :
    (runBestFrontendCheck env iso wt).2.1.worktreeRegistered = false ∧
    (runBestFrontendCheck env iso wt).2.1.tmpDirExists = false ∧
    (cleanup iso).1 = ResState.clean := by
  rw [runBest_resState env iso wt]
  exact ⟨rfl, rfl, rfl⟩

/-- C1 witness: the cleanup totality theorem applied to a concrete call
whose install fails. -/
theorem cleanup_totality_witness :
    (runBestFrontendCheck envTest isoEmpty wtInstallFail).2.1.worktreeRegistered = false ∧
    (runBestFrontendCheck envTest isoEmpty wtInstallFail).2.1.tmpDirExists = false ∧
    (cleanup isoEmpty).1 = ResState.clean :=
  cleanup_totality envTest isoEmpty wtInstallFail (by decide)

/-- C2: if applying the staged patch inside the worktree fails, the call
raises the descriptive apply-failure error, whose message says the change
could not be reproduced for testing and carries the captured stdout and
stderr of the failed git apply; the resources are released before
propagation; and the trace spawns no process other than git plumbing, so
the selected check is never executed. -/
theorem apply_failure_hard_stop (env : RepoEnv) (iso : IsolationWorld)
    (wt : WorktreeWorld) (best : CheckCommand)
    (hb : pickBestCheck env = some best)
    (hp : jsTrim iso.stagedPatch ≠ "") (ha : iso.applyOk = false) :
    (runBestFrontendCheck env iso wt).1 = Except.error (applyFailMsg iso) ∧
    applyFailMsg iso =
      "Failed to apply staged patch in worktree. This can happen with partial hunks, renames, or conflicts.\n"
        ++ "Staged changes could not be reproduced for testing.\n"
        ++ iso.applyStdout ++ iso.applyStderr ∧
    (runBestFrontendCheck env iso wt).2.1 = ResState.clean ∧
    (runBestFrontendCheck env iso wt).2.2.filter Action.isNonGitExec = [] := by
  rw [runBest_isoFail env iso wt best hb hp ha]
  refine ⟨rfl, rfl, rfl, ?_⟩
  simp [setupActs, cleanup, applyActOf, Action.isNonGitExec, List.filter_append]

/-- C2 witness: the apply-failure theorem applied to a concrete failing
patch application. -/
theorem apply_failure_hard_stop_witness :
    (runBestFrontendCheck envTest isoFailing wtPlain).1
        = Except.error (applyFailMsg isoFailing) ∧
    applyFailMsg isoFailing =
      "Failed to apply staged patch in worktree. This can happen with partial hunks, renames, or conflicts.\n"
        ++ "Staged changes could not be reproduced for testing.\n"
        ++ isoFailing.applyStdout ++ isoFailing.applyStderr ∧
    (runBestFrontendCheck envTest isoFailing wtPlain).2.1 = ResState.clean ∧
    (runBestFrontendCheck envTest isoFailing wtPlain).2.2.filter Action.isNonGitExec = [] :=
  apply_failure_hard_stop envTest isoFailing wtPlain bestTest (by decide) (by decide) rfl

/-- C3: with no manifest or an unparsable manifest the check catalog is
empty; with additionally no tsconfig.json the call returns the ran:false
result; and a returned result with ran:false has ok:true and absent kind
and output. -/
theorem no_check_invariant (env : RepoEnv) (iso : IsolationWorld) (wt : WorktreeWorld)
    (envB : RepoEnv) (isoB : IsolationWorld) (wtB : WorktreeWorld) (r : CheckResult)
    (h : env.pkgExists = false ∨ env.pkg = none)
    (hts : env.hasTsconfig = false)
    (hr : (runBestFrontendCheck envB isoB wtB).1 = Except.ok r)
    (hran : r.ran = false) :
    detectChecksFromPackageJson env = [] ∧
    (runBestFrontendCheck env iso wt).1 = Except.ok { ran := false, ok := true } ∧
    (r.ok = true ∧ r.kind = none ∧ r.output = none) := by
  have hall := allChecks_noManifest_noTs env h hts
  have hnone : pickBestCheck env = none := by
    unfold pickBestCheck
    simp [hall]
  exact ⟨detect_noManifest env h, by rw [runBest_none env iso wt hnone],
    runBest_ranFalse_inv envB isoB wtB r hr hran⟩

/-- C3 witness: the theorem applied to a concrete manifest-less,
tsconfig-less root. -/
theorem no_check_invariant_witness :
    detectChecksFromPackageJson envNoPkg = [] ∧
    (runBestFrontendCheck envNoPkg isoEmpty wtPlain).1
        = Except.ok { ran := false, ok := true } ∧
    ((CheckResult.mk false true none none none).ok = true ∧
     (CheckResult.mk false true none none none).kind = none ∧
     (CheckResult.mk false true none none none).output = none) :=
  no_check_invariant envNoPkg isoEmpty wtPlain envNoPkg isoEmpty wtPlain
    (CheckResult.mk false true none none none) (Or.inl rfl) rfl rfl rfl

/-- C4: check selection priority.  For every manifest declaring both a test
script (the canonical name or a recognized variant) and a lint script, the
selected command has kind tests and never kind lint, whatever the
declaration order in the scripts map; and a command is selected whenever
any candidate exists. -/
theorem check_selection_priority (env : RepoEnv) (pkg : PackageJson) (envB : RepoEnv)
    (he : env.pkgExists = true) (hp : env.pkg = some pkg)
    (ht : hasScript pkg.scripts "test" = true ∨ hasScript pkg.scripts "test:run" = true ∨
          hasScript pkg.scripts "test:ci" = true ∨ hasScript pkg.scripts "test:unit" = true)
    (_hl : hasScript pkg.scripts "lint" = true)
    (hne : allChecksOf envB ≠ []) :
    selectedKind env = some CheckKind.tests ∧
    selectedKind env ≠ some CheckKind.lint ∧
    (pickBestCheck envB).isSome = true := by
  rcases testScriptOf_isSome pkg.scripts ht with ⟨s, hts⟩
  rcases tests_mem_allChecks env pkg he hp s hts with ⟨t, htm, htk⟩
  have hne2 : allChecksOf env ≠ [] := by
    intro hempty
    rw [hempty] at htm
    exact absurd htm (List.not_mem_nil t)
  rcases pickBest_min env hne2 with ⟨c, hc, -, hmin⟩
  have h0 : priorityIdx c.kind ≤ priorityIdx t.kind := hmin t htm
  rw [htk] at h0
  have hk := priorityIdx_eq_zero c.kind (Nat.le_zero.mp h0)
  refine ⟨?_, ?_, pickBest_isSome envB hne⟩
  · simp [selectedKind, hc, hk]
  · simp [selectedKind, hc, hk]

/-- C4 witness: a manifest with both test and lint scripts selects the
tests command. -/
theorem check_selection_priority_witness :
    selectedKind envTest = some CheckKind.tests ∧
    selectedKind envTest ≠ some CheckKind.lint ∧
    (pickBestCheck envTest).isSome = true :=
  check_selection_priority envTest pkgTestLint envTest rfl rfl
    (Or.inl (by decide)) (by decide) (by decide)

/-- C5: dependency provisioning.  The symlink is attempted exactly when the
original root has node_modules and the worktree does not; a failed link is
non-fatal (the second call, with a failing symlink, still returns
normally); when node_modules is still missing the fallback install runs
with the invocation derived from the detected package manager, and when it
fails the call returns ran:true, ok:false carrying the install failure
text, with that install being the only non-git process spawned — the
selected check is not executed. -/
theorem provisioning_policy (env : RepoEnv) (iso : IsolationWorld) (wt : WorktreeWorld)
    (best : CheckCommand)
    (env2 : RepoEnv) (iso2 : IsolationWorld) (wt2 : WorktreeWorld) (best2 : CheckCommand)
    (hb : pickBestCheck env = some best)
    (hiso : jsTrim iso.stagedPatch = "" ∨ iso.applyOk = true)
    (hnm : nmAfterLinkOf env wt = false)
    (hfail : runOk wt.installOutcome = false)
    (hb2 : pickBestCheck env2 = some best2)
    (hiso2 : jsTrim iso2.stagedPatch = "" ∨ iso2.applyOk = true)
    (_hsym2 : wt2.symlinkOk = false) :
    (Action.symlink ∈ (runBestFrontendCheck env iso wt).2.2
      ↔ linkAttemptedOf env wt = true) ∧
    (runBestFrontendCheck env iso wt).1 =
      Except.ok { ran := true, ok := false, kind := some best.kind, name := some best.name,
                  output := some ("Failed to install dependencies in worktree:\n"
                    ++ runOutput wt.installOutcome) } ∧
    (runBestFrontendCheck env iso wt).2.2.filter Action.isNonGitExec
      = [Action.exec (installCmd env).1 (installCmd env).2 false] ∧
    isNormalReturn (runBestFrontendCheck env2 iso2 wt2).1 = true := by
  have hig := installCmd_notGit env
  rcases createStagedWorktree_ok_cases iso hiso with ⟨acts, hc, hshape⟩
  rw [runBest_installFail env iso wt best acts hb hc hnm hfail]
  refine ⟨?_, rfl, ?_, runBest_normal_of_isoOk env2 iso2 wt2 best2 hb2 hiso2⟩
  · constructor
    · intro hmem
      rcases List.mem_append.mp hmem with hmem | hmem
      · rcases List.mem_append.mp hmem with hmem | hmem
        · rcases List.mem_append.mp hmem with hmem | hmem
          · exfalso
            rcases hshape with rfl | rfl
            · simp [setupActs] at hmem
            · simp [setupActs, applyActOf] at hmem
          · unfold linkActsOf at hmem
            cases hl : linkAttemptedOf env wt
            · rw [hl] at hmem
              simp at hmem
            · rfl
        · simp at hmem
      · simp [cleanup] at hmem
    · intro hl
      refine List.mem_append_left _ (List.mem_append_left _ (List.mem_append_right _ ?_))
      simp [linkActsOf, hl]
  · rcases hshape with rfl | rfl
    · simp [setupActs, cleanup, applyActOf, linkActs_filter_nonGit, Action.isNonGitExec,
        List.filter_append, bne, hig]
    · simp [setupActs, cleanup, applyActOf, linkActs_filter_nonGit, Action.isNonGitExec,
        List.filter_append, bne, hig]

/-- C5 witness: the provisioning theorem applied to a concrete root whose
worktree install fails, and a second call with a failing symlink. -/
theorem provisioning_policy_witness :
    (Action.symlink ∈ (runBestFrontendCheck envTest isoEmpty wtInstallFail).2.2
      ↔ linkAttemptedOf envTest wtInstallFail = true) ∧
    (runBestFrontendCheck envTest isoEmpty wtInstallFail).1 =
      Except.ok { ran := true, ok := false, kind := some bestTest.kind,
                  name := some bestTest.name,
                  output := some ("Failed to install dependencies in worktree:\n"
                    ++ runOutput wtInstallFail.installOutcome) } ∧
    (runBestFrontendCheck envTest isoEmpty wtInstallFail).2.2.filter Action.isNonGitExec
      = [Action.exec (installCmd envTest).1 (installCmd envTest).2 false] ∧
    isNormalReturn (runBestFrontendCheck envTest isoEmpty wtLinkFail).1 = true :=
  provisioning_policy envTest isoEmpty wtInstallFail bestTest
    envTest isoEmpty wtLinkFail bestTest
    (by decide) (Or.inl (by decide)) (by decide) (by decide)
    (by decide) (Or.inl (by decide)) rfl

/-- C6 counterexample: the claim states output is the concatenation of the
captured stdout and stderr, but `run` trims the concatenation, so a stdout
with a trailing space already refutes it: the returned output is "out",
not "out ". -/
theorem run_output_not_plain_concat :
    (run "npm" ["test"] ⟨some 0, "out ", "", none⟩).1.output ≠ "out " ++ "" := by
  decide

/-- C6 (amended): ok is true iff the subprocess exit status is exactly zero
— a null status, as left by a launch failure, classifies as failure — and
output is the whitespace-trimmed concatenation of the captured stdout, the
captured stderr, and, when a launch error occurred, a newline plus the
launch error text. -/
theorem run_classification (program : String) (args : List String) (o : SpawnOutcome) :
    ((run program args o).1.ok = true ↔ o.status = some 0) ∧
    (run program args o).1.output
      = jsTrim (o.stdout ++ o.stderr ++ launchErrText o.errMsg) := by
  refine ⟨?_, rfl⟩
  show runOk o = true ↔ _
  unfold runOk
  cases o.status with
  | none => simp
  | some v => simp

/-- C7: the typecheck fallback is emitted only when the catalog has no
typecheck entry and tsconfig.json exists; with Vue or Nuxt in the combined
dependency keys it is vue-tsc through npx, otherwise tsc through npx; and
a declared typecheck script suppresses the fallback even when tsconfig.json
is present. -/
theorem typecheck_fallback_rules (envA envB envC envD : RepoEnv) (pkgD : PackageJson)
    (hA : fallbackChecksOf envA ≠ [])
    (hBt : envB.hasTsconfig = true) (hBn : hasTypecheckScriptOf envB = false)
    (hBv : isVueOf envB = true)
    (hCt : envC.hasTsconfig = true) (hCn : hasTypecheckScriptOf envC = false)
    (hCv : isVueOf envC = false)
    (hDe : envD.pkgExists = true) (hDp : envD.pkg = some pkgD)
    (hDs : hasScript pkgD.scripts "typecheck" = true) :
    (hasTypecheckScriptOf envA = false ∧ envA.hasTsconfig = true) ∧
    fallbackChecksOf envB =
      [⟨CheckKind.typecheck, "npx vue-tsc --noEmit", "npx", ["-y", "vue-tsc", "--noEmit"]⟩] ∧
    fallbackChecksOf envC =
      [⟨CheckKind.typecheck, "npx tsc --noEmit", "npx", ["-y", "tsc", "--noEmit"]⟩] ∧
    fallbackChecksOf envD = [] := by
  refine ⟨⟨?_, ?_⟩, ?_, ?_, ?_⟩
  · cases htA : hasTypecheckScriptOf envA with
    | false => rfl
    | true =>
      exact absurd (by simp [fallbackChecksOf, detectTypecheckFallback, htA]) hA
  · cases htsA : envA.hasTsconfig with
    | true => rfl
    | false =>
      cases htA : hasTypecheckScriptOf envA with
      | true =>
        exact absurd (by simp [fallbackChecksOf, detectTypecheckFallback, htA]) hA
      | false =>
        exact absurd (by simp [fallbackChecksOf, detectTypecheckFallback, htA, htsA]) hA
  · simp [fallbackChecksOf, detectTypecheckFallback, hBn, hBt, hBv]
  · simp [fallbackChecksOf, detectTypecheckFallback, hCn, hCt, hCv]
  · have hD := hasTypecheckScriptOf_true envD pkgD hDe hDp hDs
    simp [fallbackChecksOf, detectTypecheckFallback, hD]

/-- C7 witness: the fallback rules applied to concrete roots — one with a
fallback present, a vue root, a plain-typescript root, and a root whose
manifest declares a typecheck script. -/
theorem typecheck_fallback_rules_witness :
    (hasTypecheckScriptOf envTsOnly = false ∧ envTsOnly.hasTsconfig = true) ∧
    fallbackChecksOf envVue =
      [⟨CheckKind.typecheck, "npx vue-tsc --noEmit", "npx", ["-y", "vue-tsc", "--noEmit"]⟩] ∧
    fallbackChecksOf envTsOnly =
      [⟨CheckKind.typecheck, "npx tsc --noEmit", "npx", ["-y", "tsc", "--noEmit"]⟩] ∧
    fallbackChecksOf envTypecheck = [] :=
  typecheck_fallback_rules envTsOnly envVue envTsOnly envTypecheck pkgTypecheckOnly
    (by decide) rfl (by decide) (by decide) rfl (by decide) (by decide)
    rfl rfl (by decide)

/-- C8: no shell interpretation — every subprocess the engine spawns on any
path, the check itself and the git plumbing included, is recorded as a
program with a literal ordered argv and the shell flag false. -/
theorem no_shell_interpretation (env : RepoEnv) (iso : IsolationWorld) (wt : WorktreeWorld) :
    onlyNoShell (runBestFrontendCheck env iso wt).2.2 = true := by
  cases hb : pickBestCheck env with
  | none =>
    rw [runBest_none env iso wt hb]
    rfl
  | some best =>
    by_cases hp : jsTrim iso.stagedPatch = ""
    · have hc := createStagedWorktree_emptyPatch iso hp
      cases hnm : nmAfterLinkOf env wt
      · cases hin : runOk wt.installOutcome
        · rw [runBest_installFail env iso wt best _ hb hc hnm hin]
          simp [onlyNoShell, List.all_append, setupActs, cleanup, applyActOf,
            linkActs_noShell, Action.noShell]
        · rw [runBest_installOkCheckRun env iso wt best _ hb hc hnm hin]
          simp [onlyNoShell, List.all_append, setupActs, cleanup, applyActOf,
            linkActs_noShell, Action.noShell]
      · rw [runBest_checkRun env iso wt best _ hb hc hnm]
        simp [onlyNoShell, List.all_append, setupActs, cleanup, applyActOf,
          linkActs_noShell, Action.noShell]
    · cases ha : iso.applyOk
      · rw [runBest_isoFail env iso wt best hb hp ha]
        simp [onlyNoShell, List.all_append, setupActs, cleanup, applyActOf, Action.noShell]
      · have hc := createStagedWorktree_applied iso hp ha
        cases hnm : nmAfterLinkOf env wt
        · cases hin : runOk wt.installOutcome
          · rw [runBest_installFail env iso wt best _ hb hc hnm hin]
            simp [onlyNoShell, List.all_append, setupActs, cleanup, applyActOf,
              linkActs_noShell, Action.noShell]
          · rw [runBest_installOkCheckRun env iso wt best _ hb hc hnm hin]
            simp [onlyNoShell, List.all_append, setupActs, cleanup, applyActOf,
              linkActs_noShell, Action.noShell]
        · rw [runBest_checkRun env iso wt best _ hb hc hnm]
          simp [onlyNoShell, List.all_append, setupActs, cleanup, applyActOf,
            linkActs_noShell, Action.noShell]

/-- C9: the isolation step does not depend on the repoRoot argument.  Two
calls that run over the same process-working-directory git state but see
arbitrarily different repository roots (and worktree provisioning
outcomes), both reaching the isolation step, issue exactly the same git
plumbing commands — those determined by the git state alone. -/
theorem isolation_repoRoot_independent (env1 env2 : RepoEnv) (iso : IsolationWorld)
    (wt1 wt2 : WorktreeWorld)
    (h1 : (pickBestCheck env1).isSome = true)
    (h2 : (pickBestCheck env2).isSome = true) :
    gitCmdsOf (runBestFrontendCheck env1 iso wt1).2.2
      = gitCmdsOf (runBestFrontendCheck env2 iso wt2).2.2 := by
  rcases Option.isSome_iff_exists.mp h1 with ⟨b1, hb1⟩
  rcases Option.isSome_iff_exists.mp h2 with ⟨b2, hb2⟩
  rw [gitCmds_trace env1 iso wt1 b1 hb1, gitCmds_trace env2 iso wt2 b2 hb2]

/-- C9 witness: two roots with different manifests issue the same git
commands over the same git state. -/
theorem isolation_repoRoot_independent_witness :
    gitCmdsOf (runBestFrontendCheck envTest isoEmpty wtPlain).2.2
      = gitCmdsOf (runBestFrontendCheck envLint isoEmpty wtInstallFail).2.2 :=
  isolation_repoRoot_independent envTest envLint isoEmpty wtPlain wtInstallFail
    (by decide) (by decide)

/-- C10: on install failure the result echoes the kind and name of the
selected command although it never ran, with the same ran:true, ok:false
shape a genuine check failure produces — only the output text (the install
failure banner) differs. -/
theorem install_failure_echoes_selection (env : RepoEnv) (iso : IsolationWorld)
    (wt : WorktreeWorld) (best : CheckCommand)
    (env2 : RepoEnv) (iso2 : IsolationWorld) (wt2 : WorktreeWorld) (best2 : CheckCommand)
    (hb : pickBestCheck env = some best)
    (hiso : jsTrim iso.stagedPatch = "" ∨ iso.applyOk = true)
    (hnm : nmAfterLinkOf env wt = false)
    (hfail : runOk wt.installOutcome = false)
    (hb2 : pickBestCheck env2 = some best2)
    (hiso2 : jsTrim iso2.stagedPatch = "" ∨ iso2.applyOk = true)
    (hnm2 : nmAfterLinkOf env2 wt2 = true)
    (hcf : runOk wt2.checkOutcome = false) :
    (runBestFrontendCheck env iso wt).1 =
      Except.ok { ran := true, ok := false, kind := some best.kind, name := some best.name,
                  output := some ("Failed to install dependencies in worktree:\n"
                    ++ runOutput wt.installOutcome) } ∧
    (runBestFrontendCheck env2 iso2 wt2).1 =
      Except.ok { ran := true, ok := false, kind := some best2.kind, name := some best2.name,
                  output := some (runOutput wt2.checkOutcome) } := by
  rcases createStagedWorktree_ok_cases iso hiso with ⟨acts, hc, -⟩
  rcases createStagedWorktree_ok_cases iso2 hiso2 with ⟨acts2, hc2, -⟩
  constructor
  · rw [runBest_installFail env iso wt best acts hb hc hnm hfail]
  · rw [runBest_checkRun env2 iso2 wt2 best2 acts2 hb2 hc2 hnm2, hcf]

/-- C10 witness: the theorem applied to a concrete failing install and a
concrete failing check, both reporting the tests command. -/
theorem install_failure_echoes_selection_witness :
    (runBestFrontendCheck envTest isoEmpty wtInstallFail).1 =
      Except.ok { ran := true, ok := false, kind := some bestTest.kind,
                  name := some bestTest.name,
                  output := some ("Failed to install dependencies in worktree:\n"
                    ++ runOutput wtInstallFail.installOutcome) } ∧
    (runBestFrontendCheck envTest isoEmpty wtPlain).1 =
      Except.ok { ran := true, ok := false, kind := some bestTest.kind,
                  name := some bestTest.name,
                  output := some (runOutput wtPlain.checkOutcome) } :=
  install_failure_echoes_selection envTest isoEmpty wtInstallFail bestTest
    envTest isoEmpty wtPlain bestTest
    (by decide) (Or.inl (by decide)) (by decide) (by decide)
    (by decide) (Or.inl (by decide)) (by decide) (by decide)

end FrontendCheck
